import Mathlib

/-!
Verification of the electron-updater bundle pipeline.

This file gives a shallow embedding of the update pipeline of the
repository (download manager, stats client, channel client, coordinator
initialization) and proves the specified properties about it.

The filesystem paths manipulated by the download manager are POSIX-style
strings processed with the Node.js path functions; those functions
(normalize, join, isAbsolute) are embedded below following their
documented semantics.
-/

namespace ElectronUpdater

/-! ## String primitives

Structural reimplementations of the string operations used by the
source (JavaScript String.prototype.startsWith, endsWith, includes and
the splitting used by path normalization), so that every definition in
this file evaluates by kernel reduction. -/

/-- The POSIX path separator. -/
def pSep : String := "/"

/-- JavaScript String.prototype.startsWith. -/
def strStartsWith (s pre : String) : Bool := pre.data.isPrefixOf s.data

/-- JavaScript String.prototype.endsWith. -/
def strEndsWith (s suf : String) : Bool := suf.data.isSuffixOf s.data

/-- Substring search on character lists. -/
def charsInfixOf (pat : List Char) : List Char → Bool
  | [] => pat.isEmpty
  | c :: rest => pat.isPrefixOf (c :: rest) || charsInfixOf pat rest

/-- JavaScript String.prototype.includes: substring containment. -/
def strIncludes (s pat : String) : Bool := charsInfixOf pat.data s.data

/-- Split a character list at every separator character; mirrors
String.splitOn with a one-character separator. -/
def splitSlash : List Char → List (List Char)
  | [] => [[]]
  | c :: rest =>
    if c = '/' then [] :: splitSlash rest
    else
      match splitSlash rest with
      | [] => [[c]]
      | h :: t => (c :: h) :: t

/-- The segments of a path string, split at the separator. -/
def splitOnSep (s : String) : List String := (splitSlash s.data).map String.mk

/-- Join strings with the separator between them; mirrors
String.intercalate with the separator. -/
def interSep : List String → String
  | [] => ""
  | [x] => x
  | x :: y :: rest => x ++ pSep ++ interSep (y :: rest)

/-! ## POSIX path model (Node.js path.posix) -/

/-- Segment resolution used by Node.js path normalization: drops empty and
dot segments, resolves dot-dot segments against the accumulated stack,
keeping leading dot-dot segments only for relative paths
(allowAboveRoot). The accumulator is in reverse order. -/
def normSegs (allowAboveRoot : Bool) : List String → List String → List String
  | [], acc => acc.reverse
  | s :: rest, acc =>
    if s = "" ∨ s = "." then normSegs allowAboveRoot rest acc
    else if s = ".." then
      match acc with
      | [] => if allowAboveRoot then normSegs allowAboveRoot rest [".."]
              else normSegs allowAboveRoot rest []
      | a :: as =>
        if a = ".." then
          if allowAboveRoot then normSegs allowAboveRoot rest (".." :: a :: as)
          else normSegs allowAboveRoot rest (a :: as)
        else normSegs allowAboveRoot rest as
    else normSegs allowAboveRoot rest (s :: acc)

/-- Node.js path.posix.normalize. -/
def normalize (p : String) : String :=
  if p = "" then "."
  else
    let isAbs := strStartsWith p pSep
    let trailing := strEndsWith p pSep
    let core := interSep (normSegs (!isAbs) (splitOnSep p) [])
    if core = "" then
      if isAbs then pSep else if trailing then "." ++ pSep else "."
    else
      let core := if trailing then core ++ pSep else core
      if isAbs then pSep ++ core else core

/-- Node.js path.posix.join restricted to two arguments: empty arguments
are dropped, the remainder is joined with the separator and normalized;
the join of nothing is the dot path. -/
def pathJoin (a b : String) : String :=
  let parts := [a, b].filter (fun s => s ≠ "")
  if parts.isEmpty then "." else normalize (interSep parts)

/-- Node.js path.posix.isAbsolute. -/
def isAbsolute (p : String) : Bool := strStartsWith p pSep

/-- JavaScript truthiness of an optional string (undefined, null and the
empty string are falsy). -/
def truthy : Option String → Bool
  | none => false
  | some s => s ≠ ""

/-- Value of an optional string, defaulting to the empty string. -/
def getS : Option String → String
  | none => ""
  | some s => s

/-! ## DownloadManager.isPathSafe and extraction entry checks -/

/-- DownloadManager.isPathSafe: the normalized path must equal the
normalized allowed directory or extend it past a separator, and the raw
path must not contain a dot-dot adjacent to a separator. -/
def isPathSafe (filePath allowedDir : String) : Bool :=
  let normalizedPath := normalize filePath
  let normalizedAllowedDir := normalize allowedDir
  if !strStartsWith normalizedPath (normalizedAllowedDir ++ pSep) &&
      normalizedPath ≠ normalizedAllowedDir then
    false
  else if strIncludes filePath (pSep ++ "..") || strIncludes filePath (".." ++ pSep) then
    false
  else
    true

/-- The per-entry acceptance test of DownloadManager.extractZipSecurely:
the joined entry path must be safe with respect to the extraction
directory and the raw entry name must not be absolute; otherwise the
extraction throws before the entry is written. -/
def entryAccepted (extractPath fileName : String) : Bool :=
  isPathSafe (pathJoin extractPath fileName) extractPath && !isAbsolute fileName

example : normalize "/x/www/a/../b" = "/x/www/b" := by decide
example : pathJoin "/x/www" "a/../b" = "/x/www/b" := by decide
example : entryAccepted "/x/www" "a/../b" = true := by decide
example : entryAccepted "/x/www" "../evil.sh" = false := by decide
example : entryAccepted "/x/www" "/abs" = false := by decide
example : entryAccepted "/x/www" "sub/f.js" = true := by decide

/-- C1 (counterexample): the raw-form dot-dot clause of the claim fails.
The entry name a/../b contains dot-dot as a path segment in its raw form
(both with a separator before and after it), yet bundle extraction
accepts it, because the dot-dot substring check runs on the joined path,
which path.join has already normalized. -/
theorem c1_counterexample :
    entryAccepted "/x/www" "a/../b" = true ∧
    strIncludes "a/../b" (".." ++ pSep) = true ∧
    strIncludes "a/../b" (pSep ++ "..") = true := by decide

/-- C1 (amended): every zip entry accepted by the extraction security
check has a normalized join with the extraction directory that equals
the extraction directory or extends it past a separator, and is not an
absolute path; hence no accepted entry resolves outside the extraction
directory. (The dot-dot substring check runs on the joined, normalized
path rather than on the raw entry name.) -/
theorem c1_extraction_safety (extractPath e : String)
    (h : entryAccepted extractPath e = true) :
    (normalize (pathJoin extractPath e) = normalize extractPath ∨
     strStartsWith (normalize (pathJoin extractPath e)) (normalize extractPath ++ pSep) = true) ∧
    isAbsolute e = false := by
  unfold entryAccepted at h
  rw [Bool.and_eq_true] at h
  obtain ⟨hsafe, habs⟩ := h
  refine ⟨?_, by simpa using habs⟩
  unfold isPathSafe at hsafe
  by_cases h1 : strStartsWith (normalize (pathJoin extractPath e))
      (normalize extractPath ++ pSep) = true
  · exact Or.inr h1
  · by_cases h2 : normalize (pathJoin extractPath e) = normalize extractPath
    · exact Or.inl h2
    · simp only [Bool.not_eq_true] at h1
      simp [h1, h2] at hsafe

/-- C1 (witness): a concrete accepted entry, with the safety conclusion
evaluated. -/
theorem c1_witness :
    entryAccepted "/x/www" "sub/f.js" = true ∧
    ((normalize (pathJoin "/x/www" "sub/f.js") = normalize "/x/www" ∨
      strStartsWith (normalize (pathJoin "/x/www" "sub/f.js")) (normalize "/x/www" ++ pSep) = true) ∧
     isAbsolute "sub/f.js" = false) :=
  ⟨by decide, c1_extraction_safety "/x/www" "sub/f.js" (by decide)⟩

/-! ## Data model: bundles, the Store and the filesystem

Modelled from the spec: the StorageManager (src/main/storage.ts is not
under src/) is a persisted key-value registry with bundle get/set/delete
and a bundle path of the shape root/capgo-bundles/id; save is modelled
as the identity on the in-memory state. -/

/-- Bundle lifecycle status. -/
inductive BundleStatus where
  | downloading
  | pending
  | error
  | success
  | deleted
deriving DecidableEq, Repr

/-- Bundle record stored in the registry. -/
structure BundleInfo where
  id : String
  version : String
  downloaded : String
  checksum : String
  status : BundleStatus
deriving DecidableEq, Repr

/-- The bundle registry of the Store: an association of bundle ids to
records. -/
abbrev Store := List (String × BundleInfo)

/-- Modelled from the spec: StorageManager.deleteBundle removes the
record with the given id. -/
def deleteBundle (id : String) (st : Store) : Store :=
  st.filter (fun p => p.1 ≠ id)

/-- Modelled from the spec: StorageManager.setBundle binds the id to the
record, replacing any previous binding. -/
def setBundle (id : String) (b : BundleInfo) (st : Store) : Store :=
  (id, b) :: deleteBundle id st

/-- Modelled from the spec: StorageManager.getBundle. -/
def getBundle (id : String) (st : Store) : Option BundleInfo :=
  st.lookup id

/-- Modelled from the spec: StorageManager.getBundlePath resolves to
root/capgo-bundles/id. -/
def getBundlePath (root id : String) : String :=
  pathJoin (pathJoin root "capgo-bundles") id

/-- File contents indexed by path. -/
abbrev Files := List (String × String)

/-- Look up the content of a file. -/
def lookupFile (p : String) (fs : Files) : Option String := fs.lookup p

/-- Write a file, replacing any previous content. -/
def setFile (p c : String) (fs : Files) : Files :=
  (p, c) :: fs.filter (fun q => q.1 ≠ p)

/-- Remove a file (fs.promises.unlink). -/
def delFile (p : String) (fs : Files) : Files :=
  fs.filter (fun q => q.1 ≠ p)

/-- Whether a path equals the base path or lies strictly below it; the
paths removed by a recursive rm of the base. -/
def underOrEq (base p : String) : Bool :=
  p == base || strStartsWith p (base ++ pSep)

/-- The mutable world touched by the download manager: the Store's
bundle registry, the set of created directories, and file contents. -/
structure Sys where
  store : Store
  dirs : List String
  files : Files

/-! ## Crypto and network environment

Modelled from the spec: the CryptoManager (src/main/crypto.ts is not
under src/) provides content hashing (calculateFileChecksum /
verifyFileChecksum as digest equality), checksum decryption returning
null on failure, in-place file decryption returning success, and a
Brotli decompression attempt returning the input unchanged when it is
not a Brotli stream. Network fetches are the outcomes of
DownloadManager.downloadFile / downloadToBuffer. -/

structure DlEnv where
  fetchZip : String → Except String String
  fetchBuf : String → Except String String
  hash : String → String
  decryptChecksum : String → String → Option String
  decryptFile : String → String → Option String
  tryBrotli : String → String
  unzip : String → Option (List (String × String))

/-! ## Manifest (delta) pass -/

/-- A manifest entry of a delta update. -/
structure ManifestEntry where
  file_name : Option String
  file_hash : Option String
  download_url : Option String
deriving DecidableEq, Repr

/-- State threaded through the manifest pass: current files, the list of
URLs actually fetched, the emitted progress percents, and the completed
counter. -/
structure MState where
  files : Files
  fetched : List String
  events : List Nat
  completed : Nat

/-- JavaScript Math.round of completed / total * 100: round half up on
exact rationals. -/
def jsRoundPct (c t : Nat) : Nat := (200 * c + t) / (2 * t)

/-- DownloadManager.checkFileInCache: the file exists and either no hash
is expected or the hash of the existing content matches. -/
def checkFileInCache (hash : String → String) (fs : Files)
    (filePath : String) (expectedHash : Option String) : Bool :=
  match lookupFile filePath fs with
  | none => false
  | some content =>
    if !truthy expectedHash then true
    else hash content == getS expectedHash

/-- One iteration of the DownloadManager.downloadManifestFiles loop. -/
def processManifestEntry (env : DlEnv) (destPath : String) (total : Nat)
    (e : ManifestEntry) (ms : MState) : Except String MState :=
  if !(truthy e.file_name && truthy e.download_url) then .ok ms
  else
    let filePath := pathJoin destPath (getS e.file_name)
    if !isPathSafe filePath destPath then
      .error ("Manifest entry has invalid path: " ++ getS e.file_name)
    else if checkFileInCache env.hash ms.files filePath e.file_hash then
      let c := ms.completed + 1
      .ok { ms with completed := c, events := ms.events ++ [jsRoundPct c total] }
    else
      match env.fetchBuf (getS e.download_url) with
      | .error err => .error err
      | .ok data =>
        let fileData := env.tryBrotli data
        let fs2 := setFile filePath fileData ms.files
        if truthy e.file_hash && env.hash fileData != getS e.file_hash then
          .error ("Hash verification failed for " ++ getS e.file_name)
        else
          let c := ms.completed + 1
          .ok { files := fs2,
                fetched := ms.fetched ++ [getS e.download_url],
                completed := c,
                events := ms.events ++ [jsRoundPct c total] }

/-- DownloadManager.downloadManifestFiles: process the manifest entries
in order, threading the state. -/
def downloadManifestFiles (env : DlEnv) (destPath : String)
    (sessionKey : Option String) (total : Nat) :
    List ManifestEntry → MState → Except String MState
  | [], ms => .ok ms
  | e :: rest, ms =>
    match processManifestEntry env destPath total e ms with
    | .error err => .error err
    | .ok ms2 => downloadManifestFiles env destPath sessionKey total rest ms2

/-! ## DownloadManager.downloadBundle -/

/-- Options of a bundle download. -/
structure DownloadOptions where
  url : String
  version : String
  checksum : Option String
  sessionKey : Option String
  manifest : Option (List ManifestEntry)

/-- Checksum resolution of downloadBundle: when a truthy checksum and a
truthy session key are supplied, decryption of the checksum is
attempted; a truthy decryption result replaces the expected digest,
otherwise the raw field is kept. -/
def resolveExpected (env : DlEnv) (checksum sessionKey : Option String) :
    Option String :=
  if truthy checksum && truthy sessionKey then
    let d := env.decryptChecksum (getS checksum) (getS sessionKey)
    if truthy d then d else checksum
  else checksum

/-- The per-entry loop of extractZipSecurely: entries are checked and
written in order; the first rejected entry aborts the extraction. -/
def extractEntries (extractPath : String) :
    List (String × String) → Files → Except String Files
  | [], fs => .ok fs
  | (name, content) :: rest, fs =>
    if !isPathSafe (pathJoin extractPath name) extractPath then
      .error ("Zip entry has invalid path: " ++ name)
    else if isAbsolute name then
      .error ("Zip entry has absolute path: " ++ name)
    else
      extractEntries extractPath rest (setFile (pathJoin extractPath name) content fs)

/-- Final step of a successful download: mark the bundle successful and
persist it. -/
def finishDownload (b : BundleInfo) (s : Sys) :
    (Except (String × BundleInfo) BundleInfo) × Sys :=
  let b2 := { b with status := BundleStatus.success }
  (.ok b2, { s with store := setBundle b2.id b2 s.store })

/-- Manifest stage of downloadBundle: run the delta pass when a
non-empty manifest was supplied. -/
def manifestStage (env : DlEnv) (opts : DownloadOptions)
    (extractPath : String) (b : BundleInfo) (s : Sys) :
    (Except (String × BundleInfo) BundleInfo) × Sys :=
  match opts.manifest with
  | some entries =>
    if entries.length > 0 then
      match downloadManifestFiles env extractPath opts.sessionKey
          entries.length entries ⟨s.files, [], [], 0⟩ with
      | .error e => (.error (e, b), s)
      | .ok ms => finishDownload b { s with files := ms.files }
    else finishDownload b s
  | none => finishDownload b s

/-- Extraction stage of downloadBundle: create the www directory,
extract the zip with the per-entry security checks, delete the zip. -/
def extractStage (env : DlEnv) (opts : DownloadOptions)
    (bundlePath zipPath content : String) (b : BundleInfo) (s : Sys) :
    (Except (String × BundleInfo) BundleInfo) × Sys :=
  let extractPath := pathJoin bundlePath "www"
  let s1 : Sys := { s with dirs := extractPath :: s.dirs }
  match env.unzip content with
  | none => (.error ("Failed to extract zip", b), s1)
  | some entries =>
    match extractEntries extractPath entries s1.files with
    | .error e => (.error (e, b), s1)
    | .ok fs2 =>
      manifestStage env opts extractPath b { s1 with files := delFile zipPath fs2 }

/-- Decryption stage of downloadBundle: when a truthy session key is
supplied the zip is decrypted in place; a decryption failure aborts. -/
def decryptStage (env : DlEnv) (opts : DownloadOptions)
    (bundlePath zipPath content : String) (b : BundleInfo) (s : Sys) :
    (Except (String × BundleInfo) BundleInfo) × Sys :=
  if truthy opts.sessionKey then
    match env.decryptFile content (getS opts.sessionKey) with
    | none => (.error ("Failed to decrypt bundle", b), s)
    | some c2 =>
      extractStage env opts bundlePath zipPath c2 b
        { s with files := setFile zipPath c2 s.files }
  else
    extractStage env opts bundlePath zipPath content b s

/-- Body of the try block of downloadBundle: fetch the zip, resolve and
verify the checksum, then decrypt, extract and run the manifest pass.
Errors carry the current bundle record. -/
def downloadBundleTry (env : DlEnv) (opts : DownloadOptions)
    (bundlePath zipPath : String) (b : BundleInfo) (s : Sys) :
    (Except (String × BundleInfo) BundleInfo) × Sys :=
  match env.fetchZip opts.url with
  | .error m => (.error (m, b), s)
  | .ok content =>
    let s1 : Sys := { s with files := setFile zipPath content s.files }
    let expected := resolveExpected env opts.checksum opts.sessionKey
    if truthy expected then
      if env.hash content = getS expected then
        decryptStage env opts bundlePath zipPath content
          { b with checksum := getS expected } s1
      else (.error ("Checksum verification failed", b), s1)
    else
      decryptStage env opts bundlePath zipPath content
        { b with checksum := env.hash content } s1

/-- The catch block of downloadBundle: set the bundle status to error
and persist it, then remove the bundle directory recursively, delete
the registry record and persist again. -/
def cleanupFailed (bundleId bundlePath : String) (b : BundleInfo) (s : Sys) : Sys :=
  let bErr := { b with status := BundleStatus.error }
  let s1 : Sys := { s with store := setBundle bundleId bErr s.store }
  { s1 with
      files := s1.files.filter (fun pc => !underOrEq bundlePath pc.1),
      dirs := s1.dirs.filter (fun d => !underOrEq bundlePath d),
      store := deleteBundle bundleId s1.store }

/-- DownloadManager.downloadBundle: register the bundle as downloading,
run the download pipeline, and on any failure clean up and re-surface
the error. The generated bundle id, the timestamp and the storage root
are explicit inputs. -/
def downloadBundle (env : DlEnv) (opts : DownloadOptions)
    (bundleId now root : String) (s : Sys) : Except String BundleInfo × Sys :=
  let bundlePath := getBundlePath root bundleId
  let zipPath := pathJoin bundlePath "bundle.zip"
  let s1 : Sys := { s with dirs := bundlePath :: s.dirs }
  let b : BundleInfo :=
    { id := bundleId, version := opts.version, downloaded := now,
      checksum := getS opts.checksum, status := BundleStatus.downloading }
  let s2 : Sys := { s1 with store := setBundle bundleId b s1.store }
  match downloadBundleTry env opts bundlePath zipPath b s2 with
  | (.ok b2, s3) => (.ok b2, s3)
  | (.error (e, b2), s3) => (.error e, cleanupFailed bundleId bundlePath b2 s3)

/-- Test environment: fetches succeed, hashing is prefixing, decryption
succeeds, unzip yields one index.html entry. -/
def envT : DlEnv :=
  { fetchZip := fun _ => .ok "Z"
  , fetchBuf := fun u => .ok ("B" ++ u)
  , hash := fun c => "H" ++ c
  , decryptChecksum := fun c k => some (c ++ k)
  , decryptFile := fun c _ => some ("D" ++ c)
  , tryBrotli := fun c => c
  , unzip := fun _ => some [("index.html", "X")] }

example :
    (downloadBundle envT ⟨"u", "1.0", none, none, none⟩ "bid" "t0" "/r" ⟨[], [], []⟩).1 =
      .ok ⟨"bid", "1.0", "t0", "HZ", BundleStatus.success⟩ := by rfl

example :
    lookupFile "/r/capgo-bundles/bid/www/index.html"
      (downloadBundle envT ⟨"u", "1.0", none, none, none⟩ "bid" "t0" "/r" ⟨[], [], []⟩).2.files =
      some "X" := by rfl

example :
    (downloadBundle envT ⟨"u", "1.0", some "bad", none, none⟩ "bid" "t0" "/r" ⟨[], [], []⟩).1 =
      .error "Checksum verification failed" := by rfl

/-- Helper: looking up an id in a registry from which it was deleted
yields nothing. -/
theorem getBundle_deleteBundle (id : String) (st : Store) :
    getBundle id (deleteBundle id st) = none := by
  induction st with
  | nil => rfl
  | cons p rest ih =>
    obtain ⟨k, v⟩ := p
    by_cases h : k = id
    · simpa [deleteBundle, getBundle, List.filter_cons, h] using ih
    · simpa [deleteBundle, getBundle, List.filter_cons, h, List.lookup,
        show (id == k) = false by simp [Ne.symm h]] using ih

/-- Helper: what the catch block of downloadBundle leaves behind: the
bundle record is gone from the registry and nothing under the bundle
directory survives. -/
theorem cleanupFailed_spec (bundleId bundlePath : String) (b : BundleInfo) (s : Sys) :
    getBundle bundleId (cleanupFailed bundleId bundlePath b s).store = none ∧
    (∀ d ∈ (cleanupFailed bundleId bundlePath b s).dirs, underOrEq bundlePath d = false) ∧
    (∀ pc ∈ (cleanupFailed bundleId bundlePath b s).files, underOrEq bundlePath pc.1 = false) := by
  refine ⟨getBundle_deleteBundle _ _, ?_, ?_⟩
  · intro d hd
    simp only [cleanupFailed, List.mem_filter] at hd
    simpa using hd.2
  · intro pc hpc
    simp only [cleanupFailed, List.mem_filter] at hpc
    simpa using hpc.2

/-- C2: every failure inside downloadBundle after the bundle record has
been registered removes the bundle directory from disk, deletes the
record from the Store, and re-surfaces the original error (shown for
the fetch failure); a failed download leaves no file or directory under
the bundle path. -/
theorem c2_failure_cleanup :
    (∀ env opts bundleId now root s e s2,
      downloadBundle env opts bundleId now root s = (.error e, s2) →
      getBundle bundleId s2.store = none ∧
      (∀ d ∈ s2.dirs, underOrEq (getBundlePath root bundleId) d = false) ∧
      (∀ pc ∈ s2.files, underOrEq (getBundlePath root bundleId) pc.1 = false)) ∧
    (∀ env opts bundleId now root s m,
      env.fetchZip opts.url = .error m →
      (downloadBundle env opts bundleId now root s).1 = .error m) := by
  constructor
  · intro env opts bundleId now root s e s2 h
    simp only [downloadBundle] at h
    split at h
    · simp at h
    · rw [Prod.mk.injEq] at h
      obtain ⟨h1, h2⟩ := h
      subst h2
      exact cleanupFailed_spec bundleId (getBundlePath root bundleId) _ _
  · intro env opts bundleId now root s m hm
    simp [downloadBundle, downloadBundleTry, hm]

/-- C2 (witness): a concrete failing download leaves no record of the
bundle in the Store. -/
theorem c2_witness :
    getBundle "bid"
      (downloadBundle
        { envT with fetchZip := fun _ => .error "network down" }
        ⟨"u", "1.0", none, none, none⟩ "bid" "t0" "/r" ⟨[], [], []⟩).2.store = none :=
  (c2_failure_cleanup.1
    { envT with fetchZip := fun _ => .error "network down" }
    ⟨"u", "1.0", none, none, none⟩ "bid" "t0" "/r" ⟨[], [], []⟩ "network down" _ rfl).1

/-- Helper: a successful pipeline returns the bundle marked successful. -/
theorem finishDownload_ok_eq (b : BundleInfo) (s : Sys) (bi : BundleInfo) (s2 : Sys)
    (h : finishDownload b s = (.ok bi, s2)) :
    bi = { b with status := BundleStatus.success } := by
  simp only [finishDownload, Prod.mk.injEq] at h
  exact (Except.ok.inj h.1).symm

/-- Helper: the manifest stage does not change the checksum recorded in
the bundle. -/
theorem manifestStage_ok_checksum (env : DlEnv) (opts : DownloadOptions)
    (extractPath : String) (b : BundleInfo) (s : Sys) (bi : BundleInfo) (s2 : Sys)
    (h : manifestStage env opts extractPath b s = (.ok bi, s2)) :
    bi.checksum = b.checksum := by
  unfold manifestStage at h
  split at h
  · split at h
    · split at h
      · simp at h
      · simp [finishDownload_ok_eq _ _ _ _ h]
    · simp [finishDownload_ok_eq _ _ _ _ h]
  · simp [finishDownload_ok_eq _ _ _ _ h]

/-- Helper: the extraction stage does not change the checksum recorded
in the bundle. -/
theorem extractStage_ok_checksum (env : DlEnv) (opts : DownloadOptions)
    (bundlePath zipPath content : String) (b : BundleInfo) (s : Sys)
    (bi : BundleInfo) (s2 : Sys)
    (h : extractStage env opts bundlePath zipPath content b s = (.ok bi, s2)) :
    bi.checksum = b.checksum := by
  simp only [extractStage] at h
  split at h
  · simp at h
  · split at h
    · simp at h
    · exact manifestStage_ok_checksum _ _ _ _ _ _ _ h

/-- Helper: the decryption stage does not change the checksum recorded
in the bundle. -/
theorem decryptStage_ok_checksum (env : DlEnv) (opts : DownloadOptions)
    (bundlePath zipPath content : String) (b : BundleInfo) (s : Sys)
    (bi : BundleInfo) (s2 : Sys)
    (h : decryptStage env opts bundlePath zipPath content b s = (.ok bi, s2)) :
    bi.checksum = b.checksum := by
  simp only [decryptStage] at h
  split at h
  · split at h
    · simp at h
    · exact extractStage_ok_checksum _ _ _ _ _ _ _ _ _ h
  · exact extractStage_ok_checksum _ _ _ _ _ _ _ _ _ h

/-- Helper: when the resolved checksum is truthy and does not match the
digest of the fetched zip, the try block fails with the checksum
error. -/
theorem downloadBundleTry_checksum_fail (env : DlEnv) (opts : DownloadOptions)
    (bundlePath zipPath : String) (b : BundleInfo) (s : Sys) (content : String)
    (hf : env.fetchZip opts.url = .ok content)
    (hexp : truthy (resolveExpected env opts.checksum opts.sessionKey) = true)
    (hne : env.hash content ≠ getS (resolveExpected env opts.checksum opts.sessionKey)) :
    (downloadBundleTry env opts bundlePath zipPath b s).1 =
      .error ("Checksum verification failed", b) := by
  simp [downloadBundleTry, hf, hexp, hne]

/-- Helper: the checksum recorded by a successful try block is the
resolved expected digest when truthy, else the digest of the fetched
zip. -/
theorem downloadBundleTry_ok_checksum (env : DlEnv) (opts : DownloadOptions)
    (bundlePath zipPath : String) (b : BundleInfo) (s : Sys) (content : String)
    (bi : BundleInfo) (s2 : Sys)
    (hf : env.fetchZip opts.url = .ok content)
    (h : downloadBundleTry env opts bundlePath zipPath b s = (.ok bi, s2)) :
    bi.checksum = (if truthy (resolveExpected env opts.checksum opts.sessionKey)
                   then getS (resolveExpected env opts.checksum opts.sessionKey)
                   else env.hash content) := by
  simp only [downloadBundleTry, hf] at h
  split at h
  · rename_i hexp
    split at h
    · rw [if_pos hexp]
      simpa using decryptStage_ok_checksum _ _ _ _ _ _ _ _ _ h
    · simp at h
  · rename_i hexp
    rw [if_neg hexp]
    simpa using decryptStage_ok_checksum _ _ _ _ _ _ _ _ _ h

/-- C3: when both a checksum field and a session key are supplied (in
the truthy sense), checksum decryption is attempted and a truthy
plaintext replaces the expected digest, while a failed decryption keeps
the raw field verbatim; whenever an expected checksum is resolved,
verification compares it with the digest of the downloaded zip and a
mismatch fails the download with the checksum error; when no checksum
is supplied, the digest of the downloaded file is recorded in the
bundle record instead. -/
theorem c3_checksum_verification :
    (∀ (env : DlEnv) (c k : Option String), truthy c = true → truthy k = true →
      resolveExpected env c k =
        (if truthy (env.decryptChecksum (getS c) (getS k))
         then env.decryptChecksum (getS c) (getS k) else c)) ∧
    (∀ env opts bundleId now root s content,
      env.fetchZip opts.url = .ok content →
      truthy (resolveExpected env opts.checksum opts.sessionKey) = true →
      env.hash content ≠ getS (resolveExpected env opts.checksum opts.sessionKey) →
      (downloadBundle env opts bundleId now root s).1 = .error "Checksum verification failed") ∧
    (∀ env opts bundleId now root s content bi s2,
      env.fetchZip opts.url = .ok content →
      downloadBundle env opts bundleId now root s = (.ok bi, s2) →
      bi.checksum = (if truthy (resolveExpected env opts.checksum opts.sessionKey)
                     then getS (resolveExpected env opts.checksum opts.sessionKey)
                     else env.hash content)) := by
  refine ⟨?_, ?_, ?_⟩
  · intro env c k hc hk
    simp [resolveExpected, hc, hk]
  · intro env opts bundleId now root s content hf hexp hne
    simp only [downloadBundle]
    have hfst := downloadBundleTry_checksum_fail env opts
      (getBundlePath root bundleId) (pathJoin (getBundlePath root bundleId) "bundle.zip")
      ⟨bundleId, opts.version, now, getS opts.checksum, BundleStatus.downloading⟩
      ⟨setBundle bundleId ⟨bundleId, opts.version, now, getS opts.checksum,
        BundleStatus.downloading⟩ s.store, getBundlePath root bundleId :: s.dirs, s.files⟩
      content hf hexp hne
    rcases hTry : downloadBundleTry env opts
      (getBundlePath root bundleId) (pathJoin (getBundlePath root bundleId) "bundle.zip")
      ⟨bundleId, opts.version, now, getS opts.checksum, BundleStatus.downloading⟩
      ⟨setBundle bundleId ⟨bundleId, opts.version, now, getS opts.checksum,
        BundleStatus.downloading⟩ s.store, getBundlePath root bundleId :: s.dirs, s.files⟩
      with ⟨r, s3⟩
    rw [hTry] at hfst
    simp only at hfst
    subst hfst
    simp [hTry]
  · intro env opts bundleId now root s content bi s2 hf h
    simp only [downloadBundle] at h
    split at h
    · rename_i b2 s3 heq
      rw [Prod.mk.injEq] at h
      obtain ⟨h1, h2⟩ := h
      have hb := Except.ok.inj h1
      subst hb
      exact downloadBundleTry_ok_checksum _ _ _ _ _ _ _ _ _ hf heq
    · simp at h

/-- C3 (witness): a concrete download with an encrypted checksum whose
decryption succeeds records the decrypted digest. -/
theorem c3_witness :
    (⟨"bid", "2.0", "t0", "HZ", BundleStatus.success⟩ : BundleInfo).checksum =
      (if truthy (resolveExpected { envT with decryptChecksum := fun _ _ => some "HZ" }
                    (some "enc") (some "K"))
       then getS (resolveExpected { envT with decryptChecksum := fun _ _ => some "HZ" }
                    (some "enc") (some "K"))
       else ({ envT with decryptChecksum := fun _ _ => some "HZ" } : DlEnv).hash "Z") :=
  c3_checksum_verification.2.2 { envT with decryptChecksum := fun _ _ => some "HZ" }
    ⟨"u", "2.0", some "enc", some "K", none⟩ "bid" "t0" "/r" ⟨[], [], []⟩ "Z"
    ⟨"bid", "2.0", "t0", "HZ", BundleStatus.success⟩ _ rfl rfl

/-! ## HTTP fetch model (DownloadManager.downloadFile / downloadToBuffer)

A server maps each URL to the outcome of one request: a response with a
status code, an optional Location header and a body, a request error,
or a request timeout. The fuel argument counts the requests issued; a
return of none means the promise has not settled within that many
requests. -/

inductive FetchOutcome where
  | resp (statusCode : Nat) (location : Option String) (body : String)
  | reqError (msg : String)
  | reqTimeout

/-- DownloadManager.downloadFile: follow a 3xx response carrying a
truthy Location header by re-issuing the request at that location (with
no bound on the number of redirects); reject non-200 responses; resolve
with the downloaded content on 200; reject on request error, and on
timeout destroy the request and reject. -/
def downloadFileAux (server : String → FetchOutcome) :
    Nat → String → Option (Except String String)
  | 0, _ => none
  | n + 1, url =>
    match server url with
    | .resp statusCode location body =>
      if statusCode ≠ 0 ∧ 300 ≤ statusCode ∧ statusCode < 400 ∧ truthy location then
        downloadFileAux server n (getS location)
      else if statusCode ≠ 200 then
        some (.error ("Download failed with status " ++ toString statusCode))
      else some (.ok body)
    | .reqError m => some (.error m)
    | .reqTimeout => some (.error "Download timeout")

/-- DownloadManager.downloadToBuffer: identical redirect, error and
timeout handling, resolving with the concatenated chunks. -/
def downloadToBufferAux (server : String → FetchOutcome) :
    Nat → String → Option (Except String String)
  | 0, _ => none
  | n + 1, url =>
    match server url with
    | .resp statusCode location body =>
      if statusCode ≠ 0 ∧ 300 ≤ statusCode ∧ statusCode < 400 ∧ truthy location then
        downloadToBufferAux server n (getS location)
      else if statusCode ≠ 200 then
        some (.error ("Download failed with status " ++ toString statusCode))
      else some (.ok body)
    | .reqError m => some (.error m)
    | .reqTimeout => some (.error "Download timeout")

/-- The redirect target of one request, when the response is a 3xx with
a truthy Location header. -/
def redirectsTo (server : String → FetchOutcome) (url : String) : Option String :=
  match server url with
  | .resp statusCode location _ =>
    if statusCode ≠ 0 ∧ 300 ≤ statusCode ∧ statusCode < 400 ∧ truthy location then
      some (getS location)
    else none
  | _ => none

/-- Helper: a redirect response consumes one request and continues at
the redirect target. -/
theorem downloadFileAux_redirect (server : String → FetchOutcome) (n : Nat)
    (url u : String) (h : redirectsTo server url = some u) :
    downloadFileAux server (n + 1) url = downloadFileAux server n u := by
  rcases hs : server url with ⟨sc, loc, body⟩ | m | _ <;>
    simp only [redirectsTo, hs] at h
  · split at h
    · rename_i hcond
      have hg := Option.some.inj h
      simp only [downloadFileAux, hs, if_pos hcond, hg]
    · simp at h
  · simp at h
  · simp at h

/-- Helper: the buffer download consumes one request on a redirect in
the same way. -/
theorem downloadToBufferAux_redirect (server : String → FetchOutcome) (n : Nat)
    (url u : String) (h : redirectsTo server url = some u) :
    downloadToBufferAux server (n + 1) url = downloadToBufferAux server n u := by
  rcases hs : server url with ⟨sc, loc, body⟩ | m | _ <;>
    simp only [redirectsTo, hs] at h
  · split at h
    · rename_i hcond
      have hg := Option.some.inj h
      simp only [downloadToBufferAux, hs, if_pos hcond, hg]
    · simp at h
  · simp at h
  · simp at h

/-- The redirect chain from a URL reaches a non-redirect response after
exactly n hops. -/
def chainEnds (server : String → FetchOutcome) : String → Nat → Prop
  | url, 0 => redirectsTo server url = none
  | url, n + 1 => ∃ u, redirectsTo server url = some u ∧ chainEnds server u n

/-- A download invocation that never settles, however many requests it
is allowed to issue. -/
def dlDiverges (server : String → FetchOutcome) (url : String) : Prop :=
  ∀ n, downloadFileAux server n url = none

/-- A server whose redirect responses form a cycle: every URL answers
with a 301 pointing back at the same URL. -/
def cycleServer : String → FetchOutcome := fun _ => .resp 301 (some "http://a") ""

/-- C4 (counterexample): the claim that every download invocation
terminates, including on redirect cycles, is false: against a server
answering every request with a 301 redirect to the same URL, the
download never settles. -/
theorem c4_counterexample : dlDiverges cycleServer "http://a" := by
  intro n
  induction n with
  | zero => rfl
  | succ k ih =>
    have hstep : downloadFileAux cycleServer (k + 1) "http://a" =
        downloadFileAux cycleServer k "http://a" := by
      simp [downloadFileAux, cycleServer, truthy, getS]
    rw [hstep, ih]

/-- C4 (amended): each fetch follows 3xx Location redirects recursively
with no bound on their number; an individual request that times out is
aborted and the download fails with the timeout error; a download
invocation settles whenever its redirect chain reaches a non-redirect
response after finitely many hops, but a redirect cycle makes the
invocation non-terminating. -/
theorem c4_redirect_termination :
    (∀ server url, server url = .reqTimeout →
      downloadFileAux server 1 url = some (.error "Download timeout") ∧
      downloadToBufferAux server 1 url = some (.error "Download timeout")) ∧
    (∀ (server : String → FetchOutcome) (n : Nat) (url : String), chainEnds server url n →
      (∃ r, downloadFileAux server (n + 1) url = some r) ∧
      (∃ r, downloadToBufferAux server (n + 1) url = some r)) := by
  constructor
  · intro server url h
    constructor
    · simp [downloadFileAux, h]
    · simp [downloadToBufferAux, h]
  · intro server n
    induction n with
    | zero =>
      intro url h
      simp only [chainEnds] at h
      rcases hs : server url with ⟨sc, loc, body⟩ | m | _
      · simp only [redirectsTo, hs] at h
        split at h
        · simp at h
        · rename_i hcond
          constructor
          · by_cases h200 : sc = 200
            · exact ⟨.ok body, by simp [downloadFileAux, hs, hcond, h200]⟩
            · exact ⟨.error ("Download failed with status " ++ toString sc),
                by simp [downloadFileAux, hs, hcond, h200]⟩
          · by_cases h200 : sc = 200
            · exact ⟨.ok body, by simp [downloadToBufferAux, hs, hcond, h200]⟩
            · exact ⟨.error ("Download failed with status " ++ toString sc),
                by simp [downloadToBufferAux, hs, hcond, h200]⟩
      · exact ⟨⟨.error m, by simp [downloadFileAux, hs]⟩,
          ⟨.error m, by simp [downloadToBufferAux, hs]⟩⟩
      · exact ⟨⟨.error "Download timeout", by simp [downloadFileAux, hs]⟩,
          ⟨.error "Download timeout", by simp [downloadToBufferAux, hs]⟩⟩
    | succ k ih =>
      intro url h
      simp only [chainEnds] at h
      obtain ⟨u, hu, hrest⟩ := h
      obtain ⟨r1, hr1⟩ := (ih u hrest).1
      obtain ⟨r2, hr2⟩ := (ih u hrest).2
      exact ⟨⟨r1, by rw [downloadFileAux_redirect server (k + 1) url u hu]; exact hr1⟩,
             ⟨r2, by rw [downloadToBufferAux_redirect server (k + 1) url u hu]; exact hr2⟩⟩

/-- A server with a single redirect hop followed by a 200 response. -/
def twoStepServer : String → FetchOutcome := fun u =>
  if u = "http://a" then .resp 302 (some "http://b") ""
  else .resp 200 none "payload"

/-- C4 (witness): a concrete two-request redirect chain settles. -/
theorem c4_witness :
    chainEnds twoStepServer "http://a" 1 ∧
    (∃ r, downloadFileAux twoStepServer 2 "http://a" = some r) ∧
    (∃ r, downloadToBufferAux twoStepServer 2 "http://a" = some r) :=
  ⟨⟨"http://b", by decide, (by decide : redirectsTo twoStepServer "http://b" = none)⟩,
   c4_redirect_termination.2 twoStepServer 1 "http://a"
     ⟨"http://b", by decide, (by decide : redirectsTo twoStepServer "http://b" = none)⟩⟩

/-- C5: in the manifest pass, an entry whose target file exists and
whose hash field is non-truthy or equal to the hash of the existing
content is a cache hit: nothing is fetched and the files are unchanged
(only the completed counter and the progress events advance); any other
entry is fetched, Brotli decompression is attempted, the result is
written to the target, and a truthy hash field that does not match the
written content fails the download. -/
theorem c5_manifest_cache :
    ∀ (env : DlEnv) (destPath : String) (total : Nat) (e : ManifestEntry) (ms : MState),
      truthy e.file_name = true → truthy e.download_url = true →
      isPathSafe (pathJoin destPath (getS e.file_name)) destPath = true →
      ((∀ c, lookupFile (pathJoin destPath (getS e.file_name)) ms.files = some c →
          (truthy e.file_hash = false ∨ env.hash c = getS e.file_hash) →
          processManifestEntry env destPath total e ms =
            .ok { ms with
                  completed := ms.completed + 1
                  events := ms.events ++ [jsRoundPct (ms.completed + 1) total] }) ∧
       (∀ data,
          checkFileInCache env.hash ms.files (pathJoin destPath (getS e.file_name)) e.file_hash = false →
          env.fetchBuf (getS e.download_url) = .ok data →
          ((truthy e.file_hash = true → env.hash (env.tryBrotli data) ≠ getS e.file_hash →
             processManifestEntry env destPath total e ms =
               .error ("Hash verification failed for " ++ getS e.file_name)) ∧
           ((truthy e.file_hash = false ∨ env.hash (env.tryBrotli data) = getS e.file_hash) →
             processManifestEntry env destPath total e ms =
               .ok { files := setFile (pathJoin destPath (getS e.file_name)) (env.tryBrotli data) ms.files,
                     fetched := ms.fetched ++ [getS e.download_url],
                     completed := ms.completed + 1,
                     events := ms.events ++ [jsRoundPct (ms.completed + 1) total] })))) := by
  intro env destPath total e ms hn hu hsafe
  constructor
  · intro c hc hcond
    have hcache : checkFileInCache env.hash ms.files
        (pathJoin destPath (getS e.file_name)) e.file_hash = true := by
      simp only [checkFileInCache, hc]
      rcases hcond with h1 | h1
      · simp [h1]
      · by_cases ht : truthy e.file_hash
        · simp [ht, h1]
        · simp [ht]
    simp [processManifestEntry, hn, hu, hsafe, hcache]
  · intro data hcache hfetch
    constructor
    · intro hth hneq
      simp [processManifestEntry, hn, hu, hsafe, hcache, hfetch, hth, hneq]
    · intro hok
      rcases hok with h1 | h1 <;>
        simp [processManifestEntry, hn, hu, hsafe, hcache, hfetch, h1]

/-- C5 (witness): a concrete cache hit leaves the files untouched and
advances only the counter and the progress. -/
theorem c5_witness :
    processManifestEntry envT "/d" 1 ⟨some "f", none, some "u"⟩
      ⟨[("/d/f", "x")], [], [], 0⟩ = .ok ⟨[("/d/f", "x")], [], [100], 1⟩ := by
  have h := (c5_manifest_cache envT "/d" 1 ⟨some "f", none, some "u"⟩
      ⟨[("/d/f", "x")], [], [], 0⟩ (by decide) (by decide) (by decide)).1 "x"
      (by decide) (Or.inl (by decide))
  simpa using h

/-- The number of manifest entries with a truthy file name and a truthy
download URL; exactly the entries the manifest loop processes. -/
def countValid (manifest : List ManifestEntry) : Nat :=
  (manifest.filter (fun e => truthy e.file_name && truthy e.download_url)).length

/-- Helper: an entry without a truthy file name or download URL is
skipped, leaving the state untouched. -/
theorem processManifestEntry_skip (env : DlEnv) (destPath : String) (total : Nat)
    (e : ManifestEntry) (ms : MState)
    (h : truthy e.file_name = false ∨ truthy e.download_url = false) :
    processManifestEntry env destPath total e ms = .ok ms := by
  rcases h with h | h <;> simp [processManifestEntry, h]

/-- Helper: a manifest-loop iteration that returns normally either
skipped a non-truthy entry and left the state unchanged, or processed a
truthy entry, incrementing the completed counter and emitting exactly
one progress percent. -/
theorem processManifestEntry_ok_counts (env : DlEnv) (destPath : String) (total : Nat)
    (e : ManifestEntry) (ms ms1 : MState)
    (h : processManifestEntry env destPath total e ms = .ok ms1) :
    ((truthy e.file_name && truthy e.download_url) = false ∧ ms1 = ms) ∨
    ((truthy e.file_name && truthy e.download_url) = true ∧
      ms1.completed = ms.completed + 1 ∧
      ms1.events = ms.events ++ [jsRoundPct (ms.completed + 1) total]) := by
  by_cases hv : (truthy e.file_name && truthy e.download_url) = true
  · right
    refine ⟨hv, ?_⟩
    simp only [processManifestEntry, hv, Bool.not_true] at h
    rw [if_neg (by simp)] at h
    split at h
    · simp at h
    · split at h
      · cases Except.ok.inj h
        simp
      · split at h
        · simp at h
        · split at h
          · simp at h
          · cases Except.ok.inj h
            simp
  · left
    have hv2 : (truthy e.file_name && truthy e.download_url) = false := by
      simpa using hv
    refine ⟨hv2, ?_⟩
    simp only [processManifestEntry, hv2, Bool.not_false] at h
    rw [if_pos trivial] at h
    exact (Except.ok.inj h).symm

/-- Helper: a successful manifest pass advances the completed counter
by the number of truthy entries, and every emitted progress percent is
a rounded percentage at a counter value bounded by that number. -/
theorem manifest_run_bound (env : DlEnv) (destPath : String)
    (sk : Option String) (total : Nat) :
    ∀ (manifest : List ManifestEntry) (ms ms2 : MState),
      downloadManifestFiles env destPath sk total manifest ms = .ok ms2 →
      ms2.completed = ms.completed + countValid manifest ∧
      ∀ p ∈ ms2.events, p ∈ ms.events ∨
        ∃ c, ms.completed < c ∧ c ≤ ms.completed + countValid manifest ∧
          p = jsRoundPct c total := by
  intro manifest
  induction manifest with
  | nil =>
    intro ms ms2 h
    simp only [downloadManifestFiles] at h
    cases Except.ok.inj h
    refine ⟨by simp [countValid], ?_⟩
    intro p hp
    exact Or.inl hp
  | cons e rest ih =>
    intro ms ms2 h
    simp only [downloadManifestFiles] at h
    split at h
    · simp at h
    · rename_i ms1 hstep
      rcases processManifestEntry_ok_counts env destPath total e ms ms1 hstep with
        ⟨hv, rfl⟩ | ⟨hv, hc, he⟩
      · have hcv : countValid (e :: rest) = countValid rest := by
          simp [countValid, List.filter_cons, hv]
        rw [hcv]
        exact ih _ _ h
      · have hcv : countValid (e :: rest) = countValid rest + 1 := by
          simp [countValid, List.filter_cons, hv]
        obtain ⟨ih1, ih2⟩ := ih ms1 ms2 h
        constructor
        · rw [ih1, hc, hcv]
          omega
        · intro p hp
          rcases ih2 p hp with hmem | ⟨c, hc1, hc2, hc3⟩
          · rw [he] at hmem
            rcases List.mem_append.mp hmem with hm | hm
            · exact Or.inl hm
            · right
              refine ⟨ms.completed + 1, by omega, by rw [hcv]; omega, ?_⟩
              simpa using hm
          · right
            exact ⟨c, by omega, by rw [hcv]; omega, hc3⟩

/-- A manifest entry that is a cache hit against the file f. -/
def hitEntry : ManifestEntry := ⟨some "f", none, some "u"⟩

/-- A manifest entry with no file name, skipped by the manifest loop. -/
def skipEntry : ManifestEntry := ⟨none, none, some "u"⟩

/-- A manifest of 200 entries: 199 cache hits followed by one skipped
entry. -/
def man200 : List ManifestEntry := List.replicate 199 hitEntry ++ [skipEntry]

set_option maxRecDepth 100000 in
/-- C10 (counterexample): the strict final-percent claim fails. In a
manifest of 200 entries of which 199 are processed (cache hits) and the
last has no file name, the skipped entry is silent and uncounted, yet
the final reported percent is Math.round of 199/200 times 100, which is
100, not strictly less than 100. -/
theorem c10_counterexample :
    man200.length = 200 ∧
    countValid man200 = 199 ∧
    (downloadManifestFiles envT "/d" none 200 man200
        ⟨[("/d/f", "x")], [], [], 0⟩).map
      (fun ms => (ms.completed, ms.events.getLast?)) = .ok (199, some 100) := by
  refine ⟨by decide, by decide, by rfl⟩

/-- C10 (amended): a manifest entry whose file name or download URL is
absent or empty is skipped silently (no error, no state change) and is
never counted toward the completed counter; the final reported progress
percent is the JavaScript rounding of completed/total, which is
strictly below 100 whenever the manifest has fewer than 200 entries and
at least one skipped entry, but can reach 100 for larger manifests. -/
theorem c10_manifest_skip_progress :
    (∀ (env : DlEnv) (destPath : String) (total : Nat) (e : ManifestEntry) (ms : MState),
      truthy e.file_name = false ∨ truthy e.download_url = false →
      processManifestEntry env destPath total e ms = .ok ms) ∧
    (∀ (env : DlEnv) (destPath : String) (sk : Option String)
      (manifest : List ManifestEntry) (fs0 : Files) (ms2 : MState),
      downloadManifestFiles env destPath sk manifest.length manifest ⟨fs0, [], [], 0⟩ = .ok ms2 →
      ms2.completed = countValid manifest ∧
      (countValid manifest < manifest.length → manifest.length < 200 →
        ∀ p ∈ ms2.events, p < 100)) := by
  constructor
  · exact fun env destPath total e ms h => processManifestEntry_skip env destPath total e ms h
  · intro env destPath sk manifest fs0 ms2 h
    obtain ⟨h1, h2⟩ := manifest_run_bound env destPath sk manifest.length manifest
      ⟨fs0, [], [], 0⟩ ms2 h
    refine ⟨by simpa using h1, ?_⟩
    intro hlt hlen p hp
    rcases h2 p hp with hmem | ⟨c, hc1, hc2, hc3⟩
    · simp at hmem
    · subst hc3
      simp only [jsRoundPct]
      rw [Nat.div_lt_iff_lt_mul (by omega : 0 < 2 * manifest.length)]
      simp only [Nat.zero_add] at hc2
      omega

/-- C10 (witness): a two-entry manifest with one cache hit and one
skipped entry completes one entry and reports 50 percent. -/
theorem c10_witness :
    (⟨[("/d/f", "x")], [], [50], 1⟩ : MState).completed =
      countValid [⟨some "f", none, some "u"⟩, ⟨none, none, some "u"⟩] ∧
    (50 : Nat) < 100 :=
  ⟨(c10_manifest_skip_progress.2 envT "/d" none
      [⟨some "f", none, some "u"⟩, ⟨none, none, some "u"⟩] [("/d/f", "x")]
      ⟨[("/d/f", "x")], [], [50], 1⟩ rfl).1,
   (c10_manifest_skip_progress.2 envT "/d" none
      [⟨some "f", none, some "u"⟩, ⟨none, none, some "u"⟩] [("/d/f", "x")]
      ⟨[("/d/f", "x")], [], [50], 1⟩ rfl).2 (by decide) (by decide) 50 (by decide)⟩

/-! ## HTTP request outcomes for the fetch-based clients -/

/-- The outcome of one fetch call: a rejected promise (connect error or
abort on timeout) or a response with its ok flag, status, status text
and parsed body. -/
inductive HttpResult (β : Type) where
  | fail (msg : String)
  | resp (ok : Bool) (status : Nat) (statusText : String) (body : β)

/-! ## StatsManager -/

/-- Payload of one stats event. -/
structure StatsPayload where
  event : String
  version : Option String
  oldVersion : Option String
  bundleId : Option String
  message : Option String
deriving DecidableEq, Repr

/-- The STATS_EVENTS wire constants. -/
def STATS_DOWNLOAD_COMPLETE : String := "download_complete"

/-- The download-failed stats action. -/
def STATS_DOWNLOAD_FAILED : String := "download_fail"

/-- The update-success stats action. -/
def STATS_UPDATE_SUCCESS : String := "set"

/-- The update-failed stats action. -/
def STATS_UPDATE_FAILED : String := "set_fail"

/-- The StatsManager state the claims depend on: the stats URL and the
enabled flag derived from it. -/
structure StatsState where
  statsUrl : String
  enabled : Bool
deriving DecidableEq, Repr

/-- StatsManager constructor: telemetry is enabled iff the stats URL is
non-empty. -/
def mkStatsManager (statsUrl : String) : StatsState :=
  { statsUrl := statsUrl, enabled := statsUrl.length > 0 }

/-- StatsManager.makeRequest: issues the request and throws on a
rejected fetch or a non-2xx response; the list records the requests
issued. -/
def statsMakeRequest (outcome : HttpResult Unit) (payload : StatsPayload) :
    Except String Unit × List StatsPayload :=
  match outcome with
  | .fail m => (.error m, [payload])
  | .resp ok status statusText _ =>
    if ok then (.ok (), [payload])
    else (.error ("HTTP " ++ toString status ++ ": " ++ statusText), [payload])

/-- StatsManager.sendEvent: returns immediately when disabled (issuing
no request); otherwise issues the request and swallows any failure.
The store is read-only for the stats client and is threaded through
unchanged; the function always resolves. -/
def sendEvent {α : Type} (st : StatsState) (store : α) (outcome : HttpResult Unit)
    (payload : StatsPayload) : Except String Unit × α × List StatsPayload :=
  if !st.enabled then (.ok (), store, [])
  else
    match statsMakeRequest outcome payload with
    | (.ok _, reqs) => (.ok (), store, reqs)
    | (.error _, reqs) => (.ok (), store, reqs)

/-- StatsManager.sendDownloadComplete. -/
def sendDownloadComplete {α : Type} (st : StatsState) (store : α)
    (outcome : HttpResult Unit) (version bundleId : String) :
    Except String Unit × α × List StatsPayload :=
  sendEvent st store outcome ⟨STATS_DOWNLOAD_COMPLETE, some version, none, some bundleId, none⟩

/-- StatsManager.sendDownloadFailed. -/
def sendDownloadFailed {α : Type} (st : StatsState) (store : α)
    (outcome : HttpResult Unit) (version message : String) :
    Except String Unit × α × List StatsPayload :=
  sendEvent st store outcome ⟨STATS_DOWNLOAD_FAILED, some version, none, none, some message⟩

/-- StatsManager.sendUpdateSuccess. -/
def sendUpdateSuccess {α : Type} (st : StatsState) (store : α)
    (outcome : HttpResult Unit) (version bundleId : String) :
    Except String Unit × α × List StatsPayload :=
  sendEvent st store outcome ⟨STATS_UPDATE_SUCCESS, some version, none, some bundleId, none⟩

/-- StatsManager.sendUpdateFailed. -/
def sendUpdateFailed {α : Type} (st : StatsState) (store : α)
    (outcome : HttpResult Unit) (version bundleId message : String) :
    Except String Unit × α × List StatsPayload :=
  sendEvent st store outcome ⟨STATS_UPDATE_FAILED, some version, none, some bundleId, some message⟩

/-- C6: with an empty stats URL no request is made at all; any failure
of the stats request (transport error or non-2xx response) is swallowed
so that sendEvent resolves normally; the store is never changed by a
stats send; and the four wrappers are exactly sendEvent on their
payloads, so the same holds for them. -/
theorem c6_stats_swallowed :
    (∀ (α : Type) (store : α) (outcome : HttpResult Unit) (payload : StatsPayload),
      sendEvent (mkStatsManager "") store outcome payload = (.ok (), store, [])) ∧
    (∀ (α : Type) (st : StatsState) (store : α) (outcome : HttpResult Unit)
      (payload : StatsPayload),
      (sendEvent st store outcome payload).1 = .ok () ∧
      (sendEvent st store outcome payload).2.1 = store) ∧
    (∀ (α : Type) (st : StatsState) (store : α) (outcome : HttpResult Unit)
      (version bundleId message : String),
      sendDownloadComplete st store outcome version bundleId =
        sendEvent st store outcome
          ⟨STATS_DOWNLOAD_COMPLETE, some version, none, some bundleId, none⟩ ∧
      sendDownloadFailed st store outcome version message =
        sendEvent st store outcome
          ⟨STATS_DOWNLOAD_FAILED, some version, none, none, some message⟩ ∧
      sendUpdateSuccess st store outcome version bundleId =
        sendEvent st store outcome
          ⟨STATS_UPDATE_SUCCESS, some version, none, some bundleId, none⟩ ∧
      sendUpdateFailed st store outcome version bundleId message =
        sendEvent st store outcome
          ⟨STATS_UPDATE_FAILED, some version, none, some bundleId, some message⟩) := by
  refine ⟨?_, ?_, ?_⟩
  · intro α store outcome payload
    simp [sendEvent, mkStatsManager]
  · intro α st store outcome payload
    rcases outcome with m | ⟨ok, status, stx, body⟩
    · by_cases h : st.enabled <;> simp [sendEvent, statsMakeRequest, h]
    · cases ok <;> by_cases h : st.enabled <;> simp [sendEvent, statsMakeRequest, h]
  · intro α st store outcome version bundleId message
    exact ⟨rfl, rfl, rfl, rfl⟩

/-! ## ChannelManager -/

/-- The loosely-typed JSON body of a channel endpoint response. -/
structure ChannelResponse where
  status : Option String
  error : Option String
  message : Option String
  channel : Option String
  allow_set : Option Bool
deriving DecidableEq, Repr

/-- Normalized result of setChannel. -/
structure ChannelRes where
  status : String
  error : Option String
  message : Option String
deriving DecidableEq, Repr

/-- Normalized result of getChannel. -/
structure GetChannelRes where
  channel : Option String
  allowSet : Bool
  status : String
  error : Option String
  message : Option String
deriving DecidableEq, Repr

/-- ChannelManager.makeRequest: a rejected fetch throws its error; a
non-2xx response throws the HTTP error; an ok response yields the
parsed body. -/
def chMakeRequest {β : Type} (r : HttpResult β) : Except String β :=
  match r with
  | .fail m => .error m
  | .resp ok status statusText body =>
    if ok then .ok body
    else .error ("HTTP " ++ toString status ++ ": " ++ statusText)

/-- ChannelManager.setChannel over the outcome of its request: the
status is the response status field defaulting to ok; when it is ok or
success the requested channel is persisted; a thrown error yields a
normalized error record and leaves the stored channel unchanged. -/
def setChannel (r : HttpResult ChannelResponse) (channel : String)
    (stored : Option String) : ChannelRes × Option String :=
  match chMakeRequest r with
  | .ok resp =>
    let status := resp.status.getD "ok"
    let stored2 := if status = "ok" ∨ status = "success" then some channel else stored
    ({ status := status, error := resp.error, message := resp.message }, stored2)
  | .error msg => ({ status := "error", error := some msg, message := none }, stored)

/-- ChannelManager.getChannel over the outcome of its request: an ok
response is normalized with the stored channel (or the configured
default) filling an absent channel field; any thrown error yields the
local-cache fallback record. The function is total: no failure is
propagated. -/
def getChannel (r : HttpResult ChannelResponse) (stored dflt : Option String) :
    GetChannelRes :=
  match chMakeRequest r with
  | .ok resp =>
    { channel :=
        match resp.channel with
        | some c => some c
        | none => stored.or dflt
      allowSet := resp.allow_set.getD true
      status := resp.status.getD "ok"
      error := resp.error
      message := resp.message }
  | .error _ =>
    { channel := stored.or dflt, allowSet := true, status := "ok",
      error := none, message := none }

/-- C7 (counterexample): the claimed iff fails on a 2xx response whose
body has no status field at all: the field is neither ok nor success,
yet the channel is persisted, because the code defaults an absent
status to ok. -/
theorem c7_counterexample :
    (⟨none, none, none, none, none⟩ : ChannelResponse).status = none ∧
    (setChannel (.resp true 200 "OK" ⟨none, none, none, none, none⟩) "beta" none).2 =
      some "beta" :=
  ⟨rfl, rfl⟩

/-- C7 (amended): setChannel persists the requested channel if and only
if the normalized response status (the status field, defaulting to ok
when absent) is ok or success; on any other normalized status the
stored channel is unchanged; a transport error or non-2xx response
yields a normalized record with status error carrying the error message
and does not mutate the stored channel. -/
theorem c7_set_channel :
    (∀ (resp : ChannelResponse) (status : Nat) (stx ch : String) (stored : Option String),
      ((resp.status.getD "ok" = "ok" ∨ resp.status.getD "ok" = "success") →
        setChannel (.resp true status stx resp) ch stored =
          ({ status := resp.status.getD "ok", error := resp.error,
             message := resp.message }, some ch)) ∧
      (¬(resp.status.getD "ok" = "ok" ∨ resp.status.getD "ok" = "success") →
        setChannel (.resp true status stx resp) ch stored =
          ({ status := resp.status.getD "ok", error := resp.error,
             message := resp.message }, stored))) ∧
    (∀ (m ch : String) (stored : Option String),
      setChannel (.fail m) ch stored =
        ({ status := "error", error := some m, message := none }, stored)) ∧
    (∀ (status : Nat) (stx ch : String) (body : ChannelResponse) (stored : Option String),
      setChannel (.resp false status stx body) ch stored =
        ({ status := "error",
           error := some ("HTTP " ++ toString status ++ ": " ++ stx),
           message := none }, stored)) := by
  refine ⟨?_, ?_, ?_⟩
  · intro resp status stx ch stored
    constructor
    · intro h
      simp [setChannel, chMakeRequest, h]
    · intro h
      simp [setChannel, chMakeRequest, h]
  · intro m ch stored
    simp [setChannel, chMakeRequest]
  · intro status stx ch body stored
    simp [setChannel, chMakeRequest]

/-- C7 (witness): a response with status success persists the channel. -/
theorem c7_witness :
    setChannel (.resp true 200 "OK" ⟨some "success", none, none, none, none⟩) "beta" none =
      ({ status := "success", error := none, message := none }, some "beta") :=
  (c7_set_channel.1 ⟨some "success", none, none, none, none⟩ 200 "OK" "beta" none).1
    (Or.inr rfl)

/-- C8: on any transport failure (a rejected fetch covering connect
errors and timeouts, or a non-2xx response), getChannel returns the
local-cache fallback: the stored channel or else the configured default
channel, allowSet true, status ok; the failure is never propagated
since the function is total in the outcome. -/
theorem c8_get_channel_fallback :
    (∀ (m : String) (stored dflt : Option String),
      getChannel (.fail m) stored dflt =
        { channel := stored.or dflt, allowSet := true, status := "ok",
          error := none, message := none }) ∧
    (∀ (status : Nat) (stx : String) (body : ChannelResponse) (stored dflt : Option String),
      getChannel (.resp false status stx body) stored dflt =
        { channel := stored.or dflt, allowSet := true, status := "ok",
          error := none, message := none }) := by
  constructor
  · intro m stored dflt
    simp [getChannel, chMakeRequest]
  · intro status stx body stored dflt
    simp [getChannel, chMakeRequest]

/-! ## Coordinator initialization (ElectronUpdater.initialize) -/

/-- Observable effects of ElectronUpdater.initialize: the initialized
guard flag consulted on entry and set at the end, plus counters for the
component constructions, the window-listener and quit-listener
registrations, the pending-update application attempt, and the
periodic-check scheduling performed by one full run of the body. -/
structure UpdaterState where
  initialized : Bool
  componentsCreated : Nat
  windowListenersRegistered : Nat
  quitListenersRegistered : Nat
  pendingUpdateChecks : Nat
  periodicCheckStarts : Nat
deriving DecidableEq, Repr

/-- ElectronUpdater.initialize: returns immediately when the
initialized flag is set; otherwise creates the components, registers
the window and quit listeners, attempts the pending update once, starts
the periodic checks, and finally sets the initialized flag. -/
def coordinatorInit (s : UpdaterState) : UpdaterState :=
  if s.initialized then s
  else
    { initialized := true
      componentsCreated := s.componentsCreated + 1
      windowListenersRegistered := s.windowListenersRegistered + 1
      quitListenersRegistered := s.quitListenersRegistered + 1
      pendingUpdateChecks := s.pendingUpdateChecks + 1
      periodicCheckStarts := s.periodicCheckStarts + 1 }

/-- C9: initialization is idempotent: a second call returns immediately
without re-creating components, re-registering listeners, re-applying a
pending update or re-scheduling the periodic check, so two sequential
calls have the same observable effect as one. -/
theorem c9_init_idempotent :
    (∀ s : UpdaterState, coordinatorInit (coordinatorInit s) = coordinatorInit s) ∧
    (∀ s : UpdaterState, (coordinatorInit s).initialized = true) ∧
    (∀ s : UpdaterState, s.initialized = true → coordinatorInit s = s) := by
  refine ⟨?_, ?_, ?_⟩
  · intro s
    by_cases h : s.initialized <;> simp [coordinatorInit, h]
  · intro s
    by_cases h : s.initialized <;> simp [coordinatorInit, h]
  · intro s h
    simp [coordinatorInit, h]

/-- C9 (witness): a second call on an initialized state is the
identity. -/
theorem c9_witness :
    coordinatorInit ⟨true, 1, 1, 1, 1, 1⟩ = ⟨true, 1, 1, 1, 1, 1⟩ :=
  c9_init_idempotent.2.2 ⟨true, 1, 1, 1, 1, 1⟩ rfl

end ElectronUpdater
